import Mathlib

/-!
Verification development for the MdAnkiBridge synchronization tool
(`src/main.py`).  The Python source is shallowly embedded below: every
pure helper of `main.py` becomes a Lean function over `List Char` /
`List String`, the external markdown tokenizer is modelled as a stream
of `Token` events (the spec declares the tokenizer an external
collaborator whose output the core consumes), and the external Anki
note store is modelled as an explicit `Collection` state threaded
through the run.  The `main` driver becomes `runMain`, which returns
the `Except`-valued file output (the file is written exactly when the
run succeeds) together with the final store state.
-/

namespace MdAnkiBridge

/-- Python slice `l[a:b]` for non-negative bounds (clamping semantics). -/
def pySlice {α : Type} (l : List α) (a b : Nat) : List α :=
  (l.drop a).take (b - a)

/-- Python `str.strip()` on a character list. -/
def pyStripChars (cs : List Char) : List Char :=
  ((cs.dropWhile Char.isWhitespace).reverse.dropWhile Char.isWhitespace).reverse

/-- Python `str.strip()` returning a `String`. -/
def pyStripStr (s : String) : String :=
  String.mk (pyStripChars s.toList)

/-- Python `line.strip() == ""`. -/
def isBlankStr (s : String) : Bool :=
  s.toList.all Char.isWhitespace

/-- Python `int(s)` for unsigned decimal strings: `none` models the
`ValueError` raised on anything that is not a plain digit run. -/
def pyToNat? (cs : List Char) : Option Nat :=
  if cs ≠ [] ∧ cs.all Char.isDigit then
    some (cs.foldl (fun acc c => acc * 10 + (c.toNat - 48)) 0)
  else none

/-- Python `"".join(lines)`. -/
def joinStr (ls : List String) : String :=
  String.mk (ls.foldr (fun s acc => s.toList ++ acc) [])

/-- `readlines`: split file text into lines, each keeping its trailing
newline (the last line may carry none). -/
def splitLinesAux : List Char → List Char → List String
  | [], acc => if acc.isEmpty then [] else [String.mk acc.reverse]
  | '\n' :: rest, acc => String.mk (acc.reverse ++ ['\n']) :: splitLinesAux rest []
  | c :: rest, acc => splitLinesAux rest (c :: acc)

/-- `readlines` over a whole file content string. -/
def splitLinesKeep (s : String) : List String :=
  splitLinesAux s.toList []

/-- Character class of the tag regex `#([\w\d_\/]+)` (ASCII reading of `\w`). -/
def isTagChar (c : Char) : Bool :=
  c.isAlphanum || c == '_' || c == '/'

/-- `re.findall(r"#([\w\d_\/]+)", s)`: scan with an optional
in-progress tag run (`some acc` means a `#` was seen and `acc` holds the
reversed run collected so far); matches are non-overlapping and
scanning resumes right after each match, exactly as `findall` does. -/
def tagScan : List Char → Option (List Char) → List (List Char)
  | [], some acc => if acc.isEmpty then [] else [acc.reverse]
  | [], none => []
  | c :: rest, none =>
      if c = '#' then tagScan rest (some []) else tagScan rest none
  | c :: rest, some acc =>
      if isTagChar c then tagScan rest (some (c :: acc))
      else
        (if acc.isEmpty then [] else [acc.reverse]) ++
          (if c = '#' then tagScan rest (some []) else tagScan rest none)

/-- `re.sub(r"#([\w\d_\/]+)", "", s)`: same scan, but emitting the
characters that are not part of any match (an unmatched `#` is kept). -/
def removeTagScan : List Char → Option (List Char) → List Char
  | [], some acc => if acc.isEmpty then ['#'] else []
  | [], none => []
  | c :: rest, none =>
      if c = '#' then removeTagScan rest (some [])
      else c :: removeTagScan rest none
  | c :: rest, some acc =>
      if isTagChar c then removeTagScan rest (some (c :: acc))
      else
        (if acc.isEmpty then ['#'] else []) ++
          (if c = '#' then removeTagScan rest (some [])
           else c :: removeTagScan rest none)

/-- `re.sub(r"{.*}", "", s)` for single-line input: the greedy match
deletes from the first `\x7b` through the last `\x7d` that follows it;
afterwards no further match is possible. -/
def stripAttrBraces (cs : List Char) : List Char :=
  let pre := cs.takeWhile (fun c => c ≠ '{')
  match cs.drop pre.length with
  | [] => cs
  | _ :: r =>
      if r.contains '}' then
        pre ++ (cs.reverse.takeWhile (fun c => c ≠ '}')).reverse
      else cs

/-- `tag.replace("/", "::")`: slash (on-disk hierarchy separator) to the
in-memory `::` separator. -/
def sepToMem : List Char → List Char
  | [] => []
  | '/' :: r => ':' :: ':' :: sepToMem r
  | c :: r => c :: sepToMem r

/-- One heading event of the external markdown tokenizer, as consumed by
`extract_headings`: `heading_open` carries the tag level and the
`token.map` line span; the following `inline` token carries the heading
text.  All other token kinds are `other`. -/
inductive Token where
  | heading_open (level : Nat) (map0 map1 : Nat)
  | inline (content : String)
  | other
deriving Repr, DecidableEq

/-- An embedded Anki reference: `anki_id`, `anki_mod` and the absolute
`anki_link_lines` span, which `main.py` always sets together. -/
structure AnkiLink where
  lineStart : Nat
  lineEnd : Nat
  id : String
  mod : Option String
deriving Repr, DecidableEq

/-- The heading dictionary built by `extract_headings` and filled in by
the later passes (`mark_leaf_headings`, `attach_verbatim_content`,
`attach_anki_link`). -/
structure Heading where
  level : Nat
  start_line : Nat
  end_line : Nat
  raw_content : String
  stripped_content : String
  tags : List String
  is_leaf : Bool := true
  verbatim_content : List String := []
  content_start : Nat := 0
  content_end : Nat := 0
  ankiLink : Option AnkiLink := none
deriving Repr, DecidableEq

/-- Placeholder heading used with `List.getD`. -/
def defaultHeading : Heading :=
  { level := 0, start_line := 0, end_line := 0, raw_content := "",
    stripped_content := "", tags := [] }

/-- Build one heading record exactly as `extract_headings` does: tags
from the raw inline text (slashes converted to `::`), the stripped title
from the text with the brace attribute block and all tag matches
removed, then trimmed. -/
def mkHeading (lvl m0 m1 : Nat) (content : String) : Heading :=
  { level := lvl, start_line := m0, end_line := m1,
    raw_content := content,
    stripped_content :=
      pyStripStr (String.mk (removeTagScan (stripAttrBraces content.toList) none)),
    tags := (tagScan content.toList none).map (fun t => String.mk (sepToMem t)) }

/-- `extract_headings`: a `heading_open` token immediately followed by an
`inline` token yields one heading; a `heading_open` with no following
inline content is skipped. -/
def extract_headings : List Token → List Heading
  | Token.heading_open lvl m0 m1 :: Token.inline c :: rest =>
      mkHeading lvl m0 m1 c :: extract_headings (Token.inline c :: rest)
  | _ :: rest => extract_headings rest
  | [] => []

/-- The forward scan of `mark_leaf_headings` over the headings after the
current one: the first strictly deeper heading makes the current one a
non-leaf; the first heading at the same or a shallower level stops the
scan with the leaf default intact. -/
def leafScan (cur : Nat) : List Heading → Bool
  | [] => true
  | h :: rest =>
      if h.level > cur then false
      else if h.level ≤ cur then true
      else leafScan cur rest

/-- `mark_leaf_headings`: each heading's `is_leaf` is decided by
`leafScan` over the headings that follow it. -/
def mark_leaf_headings : List Heading → List Heading
  | [] => []
  | h :: rest =>
      { h with is_leaf := leafScan h.level rest } :: mark_leaf_headings rest

/-- The scan of `attach_verbatim_content` for the content end: the very
next heading's `start_line` regardless of its level, or end of file. -/
def contentEndScan (total : Nat) : List Heading → Nat
  | [] => total
  | h :: _ => h.start_line

/-- `attach_verbatim_content`: `content_start` is the heading's
`end_line`, `content_end` comes from `contentEndScan`, and the body
lines are sliced verbatim. -/
def attach_verbatim_content (lines : List String) : List Heading → List Heading
  | [] => []
  | h :: rest =>
      let ce := contentEndScan lines.length rest
      { h with content_start := h.end_line, content_end := ce,
               verbatim_content := pySlice lines h.end_line ce }
        :: attach_verbatim_content lines rest

/-- The literal part of the anchor regex
`\[anki\]\((mdankibridge://notes/[^\s]*)\)` before the variable tail. -/
def ankiPat : List Char := "[anki](mdankibridge://notes/".toList

/-- Largest index `k` such that all characters before position `k` are
non-whitespace and the character at `k` is `)`.  This is exactly where
the greedy `[^\s]*` hands back the final `\)` of the anchor regex. -/
def lastParenIdx : List Char → Option Nat
  | [] => none
  | c :: rest =>
      if c.isWhitespace then none
      else
        match lastParenIdx rest with
        | some k => some (k + 1)
        | none => if c = ')' then some 0 else none

/-- Try the anchor regex anchored at the current position; on success
return the captured group (the URL). -/
def matchAnkiAt (cs : List Char) : Option (List Char) :=
  if ankiPat.isPrefixOf cs then
    match lastParenIdx (cs.drop ankiPat.length) with
    | some k => some ("mdankibridge://notes/".toList ++ (cs.drop ankiPat.length).take k)
    | none => none
  else none

/-- `re.search` of the anchor regex: leftmost successful start wins. -/
def searchAnki : List Char → Option (List Char)
  | [] => none
  | c :: rest =>
      match matchAnkiAt (c :: rest) with
      | some url => some url
      | none => searchAnki rest

/-- First anchor-regex match in one line, as the captured URL. -/
def lineSearch (s : String) : Option String :=
  (searchAnki s.toList).map String.mk

/-- Everything after the first `?` (or nothing when there is none). -/
def dropThroughQ : List Char → List Char
  | [] => []
  | '?' :: rest => rest
  | _ :: rest => dropThroughQ rest

/-- `urlparse(url).query`: the fragment after the first `#` is cut away
first, then the query is what follows the first `?`. -/
def urlQuery (url : List Char) : List Char :=
  dropThroughQ (url.takeWhile (fun c => c ≠ '#'))

/-- Split a query string on `&`. -/
def splitAmp : List Char → List Char → List (List Char)
  | [], acc => [acc.reverse]
  | '&' :: rest, acc => acc.reverse :: splitAmp rest []
  | c :: rest, acc => splitAmp rest (c :: acc)

/-- One `parse_qs` field: split on the first `=`; fields without `=` and
fields with a blank value are dropped (`keep_blank_values=False`). -/
def qsPair (part : List Char) : Option (String × String) :=
  let k := part.takeWhile (fun c => c ≠ '=')
  if k.length = part.length then none
  else
    let v := part.drop (k.length + 1)
    if v.isEmpty then none else some (String.mk k, String.mk v)

/-- `parse_qs` restricted to what the tool reads from it (first value of
each key, no percent-decoding of the plain decimal ids and mods). -/
def parse_qs (q : List Char) : List (String × String) :=
  (splitAmp q []).filterMap qsPair

/-- `query_params.get(k)` followed by `[0]`: the first value bound to
key `k`. -/
def getParam (ps : List (String × String)) (k : String) : Option String :=
  (ps.find? (fun p => p.1 == k)).map (fun p => p.2)

/-- The per-line match pass of `find_anki_link`: `search` is run once on
each line (so at most one match is recorded per line); a matched line
that is strictly inside the range and surrounded by blank lines absorbs
the following blank line into its span `(idx, idx+1)`, otherwise the
span is the line alone `(idx, idx)`. -/
def ankiMatchesGo (full : List String) : List String → Nat → List (Nat × Nat × String)
  | [], _ => []
  | l :: rest, idx =>
      let tail := ankiMatchesGo full rest (idx + 1)
      match lineSearch l with
      | none => tail
      | some url =>
          if 0 < idx ∧ idx < full.length - 1 ∧
             isBlankStr (full.getD (idx - 1) "") ∧ isBlankStr (full.getD (idx + 1) "")
          then (idx, idx + 1, url) :: tail
          else (idx, idx, url) :: tail

/-- All per-line matches of the anchor regex over a body. -/
def ankiMatches (ls : List String) : List (Nat × Nat × String) :=
  ankiMatchesGo ls ls 0

/-- `find_anki_link`: more than one matched line is a hard error; one
matched line must parse to a URL carrying an `id` query parameter; no
match yields `none`. -/
def find_anki_link (ls : List String) :
    Except String (Option (Nat × Nat × String × Option String)) :=
  let ms := ankiMatches ls
  if 1 < ms.length then Except.error "Multiple Anki links found in the same heading"
  else
    match ms with
    | [] => Except.ok none
    | (a, b, url) :: _ =>
        let q := parse_qs (urlQuery url.toList)
        match getParam q "id" with
        | none => Except.error "Anki link missing id parameter"
        | some idv => Except.ok (some (a, b, idv, getParam q "mod"))

/-- `attach_anki_link`: run `find_anki_link` over every heading's
verbatim content in document order, converting the in-body match span to
absolute line numbers exactly as the source does
(`first + start_line + 1`, `last + 1 + start_line + 1`); the first
validation error aborts. -/
def attach_anki_link : List Heading → Except String (List Heading)
  | [] => Except.ok []
  | h :: rest =>
      match find_anki_link h.verbatim_content with
      | Except.error e => Except.error e
      | Except.ok none =>
          match attach_anki_link rest with
          | Except.error e => Except.error e
          | Except.ok hs => Except.ok ({ h with ankiLink := none } :: hs)
      | Except.ok (some (a, b, idv, modv)) =>
          match attach_anki_link rest with
          | Except.error e => Except.error e
          | Except.ok hs =>
              let link : AnkiLink :=
                { lineStart := a + h.start_line + 1, lineEnd := b + 1 + h.start_line + 1,
                  id := idv, mod := modv }
              Except.ok ({ h with ankiLink := some link } :: hs)

/-- A store record operation, recorded so that theorems can speak about
which store calls a run performed. -/
inductive StoreOp where
  | fetch (id : Nat)
  | create (id : Nat)
  | update (id : Nat)
deriving Repr, DecidableEq

/-- One Anki note: two fields, tags, and the modification stamp. -/
structure AnkiNote where
  id : Nat
  field0 : String
  field1 : String
  tags : List String
  mod : Nat
deriving Repr, DecidableEq

/-- The external note store, modelled from the interface the spec gives
for it: records keyed by opaque numeric ids, a totally ordered revision
stamp that advances exactly when a record's content changes (the source
relies on this: "anki updates mod iff content has changed"), fresh ids
and fresh stamps drawn from monotone counters.  `opLog` records every
record-level operation the run performs. -/
structure Collection where
  notes : List AnkiNote
  nextId : Nat
  nextMod : Nat
  opLog : List StoreOp
deriving Repr, DecidableEq

/-- Pure lookup by id. -/
def Collection.get_note (col : Collection) (id : Nat) : Option AnkiNote :=
  col.notes.find? (fun n => n.id == id)

/-- `{col with opLog := col.opLog ++ [op]}`: record one store call. -/
def Collection.logOp (col : Collection) (op : StoreOp) : Collection :=
  { col with opLog := col.opLog ++ [op] }

/-- `col.update_note(note)`: overwrite the record's fields and tags; the
revision stamp advances only when the content actually changed. -/
def Collection.update_note (col : Collection) (id : Nat)
    (f0 f1 : String) (tg : List String) : Collection :=
  { col with
    notes := col.notes.map (fun n =>
      if n.id == id then
        if n.field0 == f0 && n.field1 == f1 && n.tags == tg then n
        else { n with field0 := f0, field1 := f1, tags := tg, mod := col.nextMod }
      else n),
    nextMod := col.nextMod + 1,
    opLog := col.opLog ++ [StoreOp.update id] }

/-- `col.new_note` + `col.add_note`: a fresh record with a fresh id and
a fresh revision stamp. -/
def Collection.add_note (col : Collection) (f0 f1 : String) (tg : List String) : Collection :=
  { col with
    notes := col.notes ++
      [{ id := col.nextId, field0 := f0, field1 := f1, tags := tg, mod := col.nextMod }],
    nextId := col.nextId + 1,
    nextMod := col.nextMod + 1,
    opLog := col.opLog ++ [StoreOp.create col.nextId] }

/-- The error message of `main` when `col.get_note` fails. -/
def notFoundMsg (id : String) : String :=
  "Note with id " ++ id ++ " not found in Anki"

/-- The revision gate of `main` (lines 253-255): with a truthy recorded
`anki_mod`, a strictly newer store revision raises
"Note is newer in anki, skipping sync"; otherwise the push proceeds. -/
def modGate (m? : Option String) (noteMod : Nat) : Except String Unit :=
  match m? with
  | none => Except.ok ()
  | some m =>
      if m.toList.isEmpty then Except.ok ()
      else
        match pyToNat? m.toList with
        | none => Except.error "ValueError: invalid literal for int"
        | some mv =>
            if noteMod > mv then Except.error "Note is newer in anki, skipping sync"
            else Except.ok ()

/-- The body of the per-heading loop of `main` (lines 241-308): the
non-leaf verbatim copy (which, as in the source, falls through into the
sync logic), then either the anchored push path or the create path.
Returns the grown output buffer or the raised error, together with the
store state reached (store effects performed before an error are kept,
as in the source where the exception aborts `main` without undoing
collection calls). -/
def syncHeading (lines : List String) (u : List String) (col : Collection)
    (h : Heading) : Except String (List String) × Collection :=
  let u := if h.is_leaf then u else u ++ pySlice lines h.start_line h.content_end
  match h.ankiLink with
  | some link =>
      match pyToNat? link.id.toList with
      | none => (Except.error (notFoundMsg link.id), col)
      | some nid =>
          let col1 := col.logOp (StoreOp.fetch nid)
          match col.get_note nid with
          | none => (Except.error (notFoundMsg link.id), col1)
          | some note =>
              match modGate link.mod note.mod with
              | Except.error e => (Except.error e, col1)
              | Except.ok _ =>
                  let f1 := joinStr (pySlice lines h.content_start link.lineStart ++
                                     pySlice lines link.lineEnd h.content_end)
                  let col2 := col1.update_note nid h.stripped_content f1 h.tags
                  let col3 := col2.logOp (StoreOp.fetch nid)
                  match col2.get_note nid with
                  | none => (Except.error (notFoundMsg link.id), col3)
                  | some note2 =>
                      (Except.ok (u ++ pySlice lines h.start_line link.lineStart ++
                        ["[anki](mdankibridge://notes/?id=" ++ link.id ++ "&mod=" ++
                          Nat.repr note2.mod ++ ")\n\n"] ++
                        pySlice lines link.lineEnd h.content_end), col3)
  | none =>
      let f1 := joinStr (pySlice lines h.content_start h.content_end)
      let newId := col.nextId
      let col1 := col.add_note h.stripped_content f1 h.tags
      let col2 := col1.logOp (StoreOp.fetch newId)
      match col1.get_note newId with
      | none => (Except.error (notFoundMsg (Nat.repr newId)), col2)
      | some note2 =>
          match lines[h.end_line]? with
          | none => (Except.error "IndexError: list index out of range", col2)
          | some nextLine =>
              (Except.ok (u ++ pySlice lines h.start_line h.end_line ++
                ["\n[anki](mdankibridge://notes/?id=" ++ Nat.repr newId ++ "&mod=" ++
                  Nat.repr note2.mod ++ ")\n" ++
                  (if isBlankStr nextLine then "" else "\n")] ++
                pySlice lines h.end_line h.content_end), col2)

/-- The `for heading in headings` loop of `main`: sequential, aborting
at the first raised error with the store state reached so far. -/
def syncAll (lines : List String) : List Heading → List String → Collection →
    Except String (List String) × Collection
  | [], u, col => (Except.ok u, col)
  | h :: rest, u, col =>
      match syncHeading lines u col h with
      | (Except.error e, col') => (Except.error e, col')
      | (Except.ok u', col') => syncAll lines rest u' col'

/-- The parse pipeline of `main` up to and including `attach_anki_link`
(everything before the store loop). -/
def pipelineHeadings (lines : List String) (tokens : List Token) :
    Except String (List Heading) :=
  attach_anki_link (attach_verbatim_content lines (mark_leaf_headings (extract_headings tokens)))

/-- `main` (minus process glue): parse, classify, split, then the store
loop, and on success the full new file content (which `main` then writes
in a single call); on error nothing is written.  `headings[0]` on an
empty heading list is Python's fatal `IndexError`. -/
def runMain (lines : List String) (tokens : List Token) (col : Collection) :
    Except String (List String) × Collection :=
  match pipelineHeadings lines tokens with
  | Except.error e => (Except.error e, col)
  | Except.ok hs =>
      match hs with
      | [] => (Except.error "IndexError: list index out of range", col)
      | h0 :: _ => syncAll lines hs (lines.take h0.start_line) col

/-- The file content after the run: `write_markdown_file` runs only when
the loop finished without raising, so an error leaves the input file
byte-identical. -/
def finalFile (input : List String) (r : Except String (List String)) : List String :=
  match r with
  | Except.ok out => out
  | Except.error _ => input

/-- `Except.ok` test specialized to the run result. -/
def isOkRun (r : Except String (List String)) : Bool :=
  match r with
  | Except.ok _ => true
  | Except.error _ => false

/-- An unknown-and-never-created id: it either fails to parse as an int
(so `col.get_note(int(id))` raises) or parses to a number that is absent
from the store and below the store's fresh-id counter, hence absent for
the whole run. -/
def unknownFresh (col : Collection) (s : String) : Bool :=
  match pyToNat? s.toList with
  | none => true
  | some n => (col.get_note n).isNone && decide (n < col.nextId)

/-- The number of positions at which the anchor regex matches inside one
line; summed over a body's lines this counts the anchor links the text
contains (the spec's "more than one anchor link"), whereas the source
records at most one match per line. -/
def anchorMatchStarts : List Char → Nat
  | [] => 0
  | c :: rest =>
      (if (matchAnkiAt (c :: rest)).isSome then 1 else 0) + anchorMatchStarts rest

/-- Anchor links contained in a body, counted across every line. -/
def anchorLinksInBody (ls : List String) : Nat :=
  (ls.map (fun l => anchorMatchStarts l.toList)).sum

/-- The canonical title line the spec's Renderer would rebuild for a
leaf node: `level` hash marks, a space, the title text, then the tags
re-rendered as hash-prefixed strings with `::` turned back into `/`.
Modelled from the spec's words, for comparison with what the source
actually emits. -/
def specCanonicalTitleLine (level : Nat) (title : String) (tags : List String) : String :=
  let base := String.mk (List.replicate level '#') ++ " " ++ title
  if tags.isEmpty then base ++ "\n"
  else base ++ " " ++
    String.intercalate " " (tags.map (fun t => "#" ++ (t.replace "::" "/"))) ++ "\n"

/-! Concrete documents, token streams and store states used by the
claim theorems.  Token streams are the markdown tokenizer's output for
the given text (the tokenizer is external to the core; heading tokens
carry `token.map` line spans). -/

/-- An empty store. -/
def colEmpty : Collection := { notes := [], nextId := 100, nextMod := 500, opLog := [] }

/-- Document `"# T #tag_a\n\nbody line\n"`. -/
def tagLines : List String := ["# T #tag_a\n", "\n", "body line\n"]

/-- Tokens for `tagLines`. -/
def tagTokens : List Token :=
  [Token.heading_open 1 0 1, Token.inline "T #tag_a", Token.other]

/-- Document `"# A\n## B\nbody\n"`: heading A is a non-leaf. -/
def abLines : List String := ["# A\n", "## B\n", "body\n"]

/-- Tokens for `abLines`. -/
def abTokens : List Token :=
  [Token.heading_open 1 0 1, Token.inline "A", Token.other,
   Token.heading_open 2 1 2, Token.inline "B", Token.other,
   Token.other, Token.inline "body", Token.other]

/-- The file content the first run writes for `abLines`. -/
def abOut1 : List String :=
  ["# A\n", "# A\n", "\n[anki](mdankibridge://notes/?id=100&mod=500)\n\n", "## B\n",
   "\n[anki](mdankibridge://notes/?id=101&mod=501)\n\n", "body\n"]

/-- The first run's output re-read as file lines for the second run. -/
def abLines2 : List String := splitLinesKeep (joinStr abOut1)

/-- Tokens for `abLines2` (headings now sit at lines 0, 1 and 5). -/
def abTokens2 : List Token :=
  [Token.heading_open 1 0 1, Token.inline "A", Token.other,
   Token.heading_open 1 1 2, Token.inline "A", Token.other,
   Token.heading_open 2 5 6, Token.inline "B", Token.other,
   Token.other, Token.inline "body", Token.other]

/-- Document with an anchored section whose store record is newer:
anchor carries `mod=5`, the store holds revision 9. -/
def pullLines : List String :=
  ["# T\n", "\n", "[anki](mdankibridge://notes/?id=7&mod=5)\n", "\n", "body\n"]

/-- Tokens for `pullLines`. -/
def pullTokens : List Token :=
  [Token.heading_open 1 0 1, Token.inline "T", Token.other]

/-- Store for `pullLines`: id 7 exists at revision 9 (> 5). -/
def pullCol : Collection :=
  { notes := [{ id := 7, field0 := "front", field1 := "back", tags := [], mod := 9 }],
    nextId := 1000, nextMod := 2000, opLog := [] }

/-- Document whose single body line carries two anchor links. -/
def twoLinkLines : List String :=
  ["# T\n", "\n",
   "[anki](mdankibridge://notes/?id=7&mod=5) [anki](mdankibridge://notes/?id=8&mod=5)\n",
   "\n", "body\n"]

/-- Tokens for `twoLinkLines`. -/
def twoLinkTokens : List Token :=
  [Token.heading_open 1 0 1, Token.inline "T", Token.other]

/-- Store for `twoLinkLines`: id 7 exists at the anchor's revision. -/
def twoLinkCol : Collection :=
  { notes := [{ id := 7, field0 := "front", field1 := "back", tags := [], mod := 5 }],
    nextId := 1000, nextMod := 2000, opLog := [] }

/-- The parsed headings of `twoLinkLines`. -/
def twoLinkHs : List Heading :=
  (pipelineHeadings twoLinkLines twoLinkTokens).toOption.getD []

/-- Document with anchor links on two separate body lines. -/
def sepLinkLines : List String :=
  ["# T\n", "[anki](mdankibridge://notes/?id=1)\n", "[anki](mdankibridge://notes/?id=2)\n"]

/-- Tokens for `sepLinkLines`. -/
def sepLinkTokens : List Token :=
  [Token.heading_open 1 0 1, Token.inline "T", Token.other]

/-- Two-section document: the first section is new (create), the second
one's anchor id 999 is absent from the store. -/
def unkLines : List String :=
  ["# C\n", "\n", "c body\n", "\n", "# D\n", "\n",
   "[anki](mdankibridge://notes/?id=999&mod=5)\n", "\n", "d body\n"]

/-- Tokens for `unkLines`. -/
def unkTokens : List Token :=
  [Token.heading_open 1 0 1, Token.inline "C", Token.other,
   Token.other, Token.inline "c body", Token.other,
   Token.heading_open 1 4 5, Token.inline "D", Token.other,
   Token.other, Token.inline "d body", Token.other]

/-- Store for `unkLines`: empty, with fresh-id counter above 999. -/
def unkCol : Collection := { notes := [], nextId := 5000, nextMod := 9000, opLog := [] }

/-- The parsed headings of `unkLines`. -/
def unkHs : List Heading :=
  (pipelineHeadings unkLines unkTokens).toOption.getD []

/-- Document whose title line `"#  T"` (two spaces) is not canonical. -/
def titleLines : List String := ["#  T\n", "\n", "body\n"]

/-- Tokens for `titleLines` (the tokenizer strips the marker and
whitespace, leaving inline content `"T"`). -/
def titleTokens : List Token :=
  [Token.heading_open 1 0 1, Token.inline "T", Token.other]

/-- The parsed headings of `titleLines`. -/
def titleHs : List Heading :=
  (pipelineHeadings titleLines titleTokens).toOption.getD []

/-- Two-heading list for witness instantiations. -/
def demoHs : List Heading :=
  [mkHeading 1 0 1 "A", mkHeading 2 1 2 "B"]

/-! Helper lemmas. -/

/-- The forward scan of `mark_leaf_headings` always decides on the very
first following heading (every level comparison is decisive). -/
theorem leafScan_eq (cur : Nat) (l : List Heading) :
    leafScan cur l =
      (match l with
       | [] => true
       | x :: _ => decide (x.level ≤ cur)) := by
  cases l with
  | nil => rfl
  | cons x xs =>
      by_cases hx : x.level ≤ cur
      · have hgt : ¬ (x.level > cur) := by omega
        simp [leafScan, hx, hgt]
      · have hgt : x.level > cur := by omega
        simp [leafScan, hx, hgt]

/-! # C8 -/

/-- C8.  For every node in the parsed sequence, `is_leaf` is decided by
the immediately following node alone: it is `false` exactly when that
node's level is strictly greater, and `true` when its level is less than
or equal to the current one or when no node follows (for an index past
the end both sides are trivially `true`). -/
theorem c8_is_leaf_rule (hs : List Heading) (i : Nat) :
    ((mark_leaf_headings hs).getD i defaultHeading).is_leaf =
      (match hs[i + 1]? with
       | none => true
       | some nxt => decide (nxt.level ≤ (hs.getD i defaultHeading).level)) := by
  induction hs generalizing i with
  | nil => rfl
  | cons h t ih =>
      cases i with
      | zero =>
          simp only [mark_leaf_headings, List.getD_cons_zero, List.getElem?_cons_succ]
          rw [leafScan_eq]
          cases t with
          | nil => rfl
          | cons x xs => simp [List.getElem?_cons_zero]
      | succ n =>
          simp only [mark_leaf_headings, List.getD_cons_succ, List.getElem?_cons_succ]
          exact ih n

/-! # C9 -/

/-- C9.  For every node (leaf and non-leaf alike), `content_end` — the
exclusive end of the node's body — is the `start_line` of the
immediately following node in the sequence regardless of that node's
level, or the end of the file for the last node. -/
theorem c9_body_end_rule (lines : List String) (hs : List Heading) (i : Nat)
    (hi : i < hs.length) :
    ((attach_verbatim_content lines hs).getD i defaultHeading).content_end =
      (match hs[i + 1]? with
       | none => lines.length
       | some nxt => nxt.start_line) := by
  induction hs generalizing i with
  | nil => simp at hi
  | cons h t ih =>
      cases i with
      | zero =>
          simp only [attach_verbatim_content, List.getD_cons_zero, List.getElem?_cons_succ]
          cases t with
          | nil => rfl
          | cons x xs => simp [contentEndScan, List.getElem?_cons_zero]
      | succ n =>
          simp only [attach_verbatim_content, List.getD_cons_succ, List.getElem?_cons_succ]
          exact ih n (by simpa using hi)

/-- Witness for C9 at a concrete two-node sequence. -/
theorem c9_body_end_witness :
    0 < demoHs.length ∧
      ((attach_verbatim_content abLines demoHs).getD 0 defaultHeading).content_end =
        (match demoHs[1]? with
         | none => abLines.length
         | some nxt => nxt.start_line) :=
  ⟨by decide, c9_body_end_rule abLines demoHs 0 (by decide)⟩

/-! # C10 -/

/-- C10.  A parse that yields zero heading nodes hits `headings[0]` and
dies with Python's `IndexError` before any store record operation and
before any write to the file: the store state is returned untouched and
the file keeps its input content. -/
theorem c10_empty_headings_fatal (lines : List String) (tokens : List Token)
    (col : Collection) (h : extract_headings tokens = []) :
    runMain lines tokens col = (Except.error "IndexError: list index out of range", col) ∧
      finalFile lines (runMain lines tokens col).1 = lines := by
  have hp : pipelineHeadings lines tokens = Except.ok [] := by
    rw [pipelineHeadings, h]; rfl
  constructor
  · simp [runMain, hp]
  · simp [runMain, hp, finalFile]

/-- Witness for C10 on a heading-free document. -/
theorem c10_empty_headings_witness :
    runMain ["hello\n"] [Token.other] colEmpty =
        (Except.error "IndexError: list index out of range", colEmpty) ∧
      finalFile ["hello\n"] (runMain ["hello\n"] [Token.other] colEmpty).1 = ["hello\n"] :=
  c10_empty_headings_fatal ["hello\n"] [Token.other] colEmpty rfl

/-! # C6 -/

/-- Logging a store call does not change the record table or the
fresh-id counter. -/
theorem unknownFresh_logOp (col : Collection) (op : StoreOp) (s : String) :
    unknownFresh (col.logOp op) s = unknownFresh col s := by
  cases hn : pyToNat? s.toList <;>
    simp [unknownFresh, hn, Collection.logOp, Collection.get_note]

/-- `find?` by id stays `none` under an id-preserving map. -/
theorem find?_map_keep_id (l : List AnkiNote) (g : AnkiNote → AnkiNote)
    (hg : ∀ x, (g x).id = x.id) (n : Nat)
    (h : l.find? (fun m => m.id == n) = none) :
    (l.map g).find? (fun m => m.id == n) = none := by
  induction l with
  | nil => simp
  | cons x xs ih =>
      cases hpx : (x.id == n) with
      | true => simp [List.find?_cons, hpx] at h
      | false =>
          simp only [List.find?_cons, hpx] at h
          simp only [List.map_cons, List.find?_cons, hg x, hpx]
          exact ih h

/-- `update_note` rewrites fields in place: it never adds an id and
never moves the fresh-id counter, so an unknown fresh id stays one. -/
theorem unknownFresh_update (col : Collection) (id : Nat) (f0 f1 : String)
    (tg : List String) (s : String) (h : unknownFresh col s = true) :
    unknownFresh (col.update_note id f0 f1 tg) s = true := by
  unfold unknownFresh at h ⊢
  cases hn : pyToNat? s.toList with
  | none => rfl
  | some n =>
      rw [hn] at h
      simp only [Bool.and_eq_true, decide_eq_true_eq, Option.isNone_iff_eq_none] at h ⊢
      obtain ⟨h1, h2⟩ := h
      refine ⟨?_, h2⟩
      unfold Collection.get_note at h1 ⊢
      unfold Collection.update_note
      apply find?_map_keep_id _ _ _ _ h1
      intro x
      split
      · split
        · rfl
        · rfl
      · rfl

/-- `add_note` creates a record at the current fresh id, which is above
any unknown fresh id, so an unknown fresh id stays one. -/
theorem unknownFresh_add (col : Collection) (f0 f1 : String) (tg : List String)
    (s : String) (h : unknownFresh col s = true) :
    unknownFresh (col.add_note f0 f1 tg) s = true := by
  unfold unknownFresh at h ⊢
  cases hn : pyToNat? s.toList with
  | none => rfl
  | some n =>
      rw [hn] at h
      simp only [Bool.and_eq_true, decide_eq_true_eq, Option.isNone_iff_eq_none] at h ⊢
      obtain ⟨h1, h2⟩ := h
      unfold Collection.get_note at h1 ⊢
      unfold Collection.add_note
      constructor
      · rw [List.find?_append, h1]
        have hne : (col.nextId == n) = false := by
          simp only [beq_eq_false_iff_ne, ne_eq]
          omega
        simp [List.find?_cons, hne]
      · exact Nat.lt_succ_of_lt h2

/-- One loop step keeps an unknown fresh id unknown and fresh, whatever
path it takes through the store. -/
theorem syncHeading_preserves (lines u : List String) (col : Collection) (h : Heading)
    (s : String) (hu : unknownFresh col s = true) :
    unknownFresh (syncHeading lines u col h).2 s = true := by
  unfold syncHeading
  dsimp only
  split
  · split
    · dsimp only
      exact hu
    · split
      · dsimp only
        rw [unknownFresh_logOp]
        exact hu
      · split
        · dsimp only
          rw [unknownFresh_logOp]
          exact hu
        · split
          · dsimp only
            rw [unknownFresh_logOp]
            apply unknownFresh_update
            rw [unknownFresh_logOp]
            exact hu
          · dsimp only
            rw [unknownFresh_logOp]
            apply unknownFresh_update
            rw [unknownFresh_logOp]
            exact hu
  · split
    · dsimp only
      rw [unknownFresh_logOp]
      apply unknownFresh_add
      exact hu
    · split
      · dsimp only
        rw [unknownFresh_logOp]
        apply unknownFresh_add
        exact hu
      · dsimp only
        rw [unknownFresh_logOp]
        apply unknownFresh_add
        exact hu

/-- A heading whose anchor id is unknown and fresh makes its loop step
raise the source's "not found" error. -/
theorem syncHeading_bad (lines u : List String) (col : Collection) (h : Heading)
    (l : AnkiLink) (hlink : h.ankiLink = some l) (hun : unknownFresh col l.id = true) :
    (syncHeading lines u col h).1 = Except.error (notFoundMsg l.id) := by
  unfold syncHeading
  rw [hlink]
  cases hn : pyToNat? l.id.toList with
  | none =>
      have hn' : pyToNat? l.id.data = none := hn
      simp [hn']
  | some n =>
      unfold unknownFresh at hun
      rw [hn] at hun
      simp only [Bool.and_eq_true, Option.isNone_iff_eq_none] at hun
      obtain ⟨h1, _⟩ := hun
      have hn' : pyToNat? l.id.data = some n := hn
      simp [hn', h1]

/-- Sequential loop: once some heading in the list carries an unknown
fresh anchor id, the loop ends in an error (either at that heading or at
an earlier failure). -/
theorem syncAll_unknown (lines : List String) (hs : List Heading) (u : List String)
    (col : Collection)
    (hbad : ∃ h ∈ hs, ∃ l, h.ankiLink = some l ∧ unknownFresh col l.id = true) :
    ∃ e, (syncAll lines hs u col).1 = Except.error e := by
  induction hs generalizing u col with
  | nil =>
      rcases hbad with ⟨h, hm, _⟩
      cases hm
  | cons h0 t ih =>
      rcases hbad with ⟨h, hm, l, hlink, hun⟩
      rcases List.mem_cons.mp hm with heq | hmem
      · subst heq
        have herr := syncHeading_bad lines u col h l hlink hun
        rcases hres : syncHeading lines u col h with ⟨r, col'⟩
        rw [hres] at herr
        simp only at herr
        subst herr
        exact ⟨notFoundMsg l.id, by simp [syncAll, hres]⟩
      · rcases hres : syncHeading lines u col h0 with ⟨r, col'⟩
        cases r with
        | error e => exact ⟨e, by simp [syncAll, hres]⟩
        | ok u' =>
            have hcol' : unknownFresh col' l.id = true := by
              have hp := syncHeading_preserves lines u col h0 l.id hun
              rw [hres] at hp
              exact hp
            have := ih u' col' ⟨h, hmem, l, hlink, hcol'⟩
            simpa [syncAll, hres] using this

/-- C6.  When some node's anchor id is unknown to the store (and below
its fresh-id counter, so no create in the same run can produce it), the
run raises a fatal error and performs zero writes to the source file;
concretely, on `unkLines` the first section's freshly created record
(id 5000) survives in the store after the abort — earlier store writes
are not rolled back. -/
theorem c6_unknown_id_aborts :
    (∀ (lines : List String) (tokens : List Token) (col : Collection) (hs : List Heading),
        pipelineHeadings lines tokens = Except.ok hs →
        (∃ h ∈ hs, ∃ l, h.ankiLink = some l ∧ unknownFresh col l.id = true) →
        (∃ e, (runMain lines tokens col).1 = Except.error e) ∧
          finalFile lines (runMain lines tokens col).1 = lines) ∧
      (runMain unkLines unkTokens unkCol).1 = Except.error (notFoundMsg "999") ∧
      (runMain unkLines unkTokens unkCol).2.notes.map AnkiNote.id = [5000] ∧
      (runMain unkLines unkTokens unkCol).2.opLog =
        [StoreOp.create 5000, StoreOp.fetch 5000, StoreOp.fetch 999] := by
  refine ⟨?_, rfl, rfl, rfl⟩
  intro lines tokens col hs hp hbad
  have herr : ∃ e, (runMain lines tokens col).1 = Except.error e := by
    cases hs with
    | nil =>
        rcases hbad with ⟨h, hm, _⟩
        cases hm
    | cons h0 t =>
        have := syncAll_unknown lines (h0 :: t) (lines.take h0.start_line) col hbad
        simpa [runMain, hp] using this
  refine ⟨herr, ?_⟩
  obtain ⟨e, he⟩ := herr
  simp [finalFile, he]

/-- The second section's anchor of `unkLines`. -/
def unkBadLink : AnkiLink :=
  { lineStart := 6, lineEnd := 8, id := "999", mod := some "5" }

/-- Witness for C6 at the concrete two-section document. -/
theorem c6_unknown_id_witness :
    (∃ e, (runMain unkLines unkTokens unkCol).1 = Except.error e) ∧
      finalFile unkLines (runMain unkLines unkTokens unkCol).1 = unkLines :=
  c6_unknown_id_aborts.1 unkLines unkTokens unkCol unkHs rfl
    ⟨unkHs.getD 1 defaultHeading, by decide, unkBadLink, by decide, by decide⟩

/-! # C7 -/

/-- The per-line match list has one entry per line on which the anchor
regex fires. -/
theorem ankiMatchesGo_length (full : List String) (sub : List String) (idx : Nat) :
    (ankiMatchesGo full sub idx).length = sub.countP (fun l => (lineSearch l).isSome) := by
  induction sub generalizing idx with
  | nil => rfl
  | cons l rest ih =>
      unfold ankiMatchesGo
      dsimp only
      cases hs : lineSearch l with
      | none => simp [hs, List.countP_cons, ih]
      | some url =>
          simp only [hs]
          split <;> simp [List.countP_cons, hs, ih]

/-- Two or more anchor-bearing lines make `find_anki_link` raise the
multiple-anchors validation error. -/
theorem find_anki_link_multi (ls : List String)
    (h2 : 2 ≤ ls.countP (fun l => (lineSearch l).isSome)) :
    find_anki_link ls = Except.error "Multiple Anki links found in the same heading" := by
  unfold find_anki_link
  have hlen : 1 < (ankiMatches ls).length := by
    rw [ankiMatches, ankiMatchesGo_length]
    omega
  simp [hlen]

/-- A unique matched line whose URL carries no `id` query parameter
makes `find_anki_link` raise the missing-id validation error. -/
theorem find_anki_link_noid (ls : List String) (a b : Nat) (url : String)
    (hm : ankiMatches ls = [(a, b, url)])
    (hid : getParam (parse_qs (urlQuery url.toList)) "id" = none) :
    find_anki_link ls = Except.error "Anki link missing id parameter" := by
  unfold find_anki_link
  dsimp only
  rw [hm]
  have hid' : getParam (parse_qs (urlQuery url.data)) "id" = none := hid
  simp [hid']

/-- Any heading whose body fails `find_anki_link` makes the whole
`attach_anki_link` pass fail. -/
theorem attach_anki_link_err (hs : List Heading)
    (h : ∃ a ∈ hs, ∃ e0, find_anki_link a.verbatim_content = Except.error e0) :
    ∃ e, attach_anki_link hs = Except.error e := by
  induction hs with
  | nil =>
      rcases h with ⟨a, ha, _⟩
      cases ha
  | cons h0 t ih =>
      rcases h with ⟨a, ha, e0, he⟩
      rcases List.mem_cons.mp ha with rfl | hmem
      · exact ⟨e0, by simp [attach_anki_link, he]⟩
      · cases hf : find_anki_link h0.verbatim_content with
        | error e => exact ⟨e, by simp [attach_anki_link, hf]⟩
        | ok v =>
            obtain ⟨e, he'⟩ := ih ⟨a, hmem, e0, he⟩
            cases v with
            | none => exact ⟨e, by simp [attach_anki_link, hf, he']⟩
            | some trip =>
                obtain ⟨a1, b1, idv, modv⟩ := trip
                exact ⟨e, by simp [attach_anki_link, hf, he']⟩

/-- C7 counterexample.  A body line carrying two anchor links yields a
single per-line match, so the run does not fail: it performs store
fetches and an update and succeeds — refuting the claim that more than
one anchor link in a body always aborts before any store operation. -/
theorem c7_one_line_two_links_cex :
    anchorLinksInBody ((twoLinkHs.getD 0 defaultHeading).verbatim_content) = 2 ∧
      isOkRun (runMain twoLinkLines twoLinkTokens twoLinkCol).1 = true ∧
      (runMain twoLinkLines twoLinkTokens twoLinkCol).2.opLog =
        [StoreOp.fetch 7, StoreOp.update 7, StoreOp.fetch 7] :=
  ⟨rfl, rfl, rfl⟩

/-- C7 amended.  Anchor links on at least two distinct body lines, or a
unique matched line whose URL lacks the `id` parameter, raise a
validation error in `find_anki_link`; and any such failure aborts the
run during `attach_anki_link`, before any store record operation (the
store state, including its operation log, is returned untouched) and
before any file write. -/
theorem c7_malformed_anchor_aborts :
    (∀ ls : List String, 2 ≤ ls.countP (fun l => (lineSearch l).isSome) →
        find_anki_link ls = Except.error "Multiple Anki links found in the same heading") ∧
      (∀ (ls : List String) (a b : Nat) (url : String),
          ankiMatches ls = [(a, b, url)] →
          getParam (parse_qs (urlQuery url.toList)) "id" = none →
          find_anki_link ls = Except.error "Anki link missing id parameter") ∧
      (∀ (lines : List String) (tokens : List Token) (col : Collection),
          (∃ h ∈ attach_verbatim_content lines (mark_leaf_headings (extract_headings tokens)),
            ∃ e0, find_anki_link h.verbatim_content = Except.error e0) →
          ∃ e, runMain lines tokens col = (Except.error e, col)) := by
  refine ⟨find_anki_link_multi, find_anki_link_noid, ?_⟩
  intro lines tokens col hbad
  obtain ⟨e, he⟩ := attach_anki_link_err _ hbad
  exact ⟨e, by simp [runMain, pipelineHeadings, he]⟩

/-- Witness for C7 (amended) at a document with anchor links on two
separate lines. -/
theorem c7_malformed_anchor_witness :
    ∃ e, runMain sepLinkLines sepLinkTokens colEmpty = (Except.error e, colEmpty) :=
  c7_malformed_anchor_aborts.2.2 sepLinkLines sepLinkTokens colEmpty
    ⟨(attach_verbatim_content sepLinkLines
        (mark_leaf_headings (extract_headings sepLinkTokens))).getD 0 defaultHeading,
     by decide, "Multiple Anki links found in the same heading", rfl⟩

/-! # C3 -/

/-- A slice whose start is inside the list and before its end peels off
the element at the start. -/
theorem pySlice_head (l : List String) (a b : Nat) (h1 : a < l.length) (h2 : a < b) :
    pySlice l a b = l.getD a "" :: pySlice l (a + 1) b := by
  unfold pySlice
  rw [List.getD_eq_getElem l "" h1]
  rw [List.drop_eq_getElem_cons h1]
  have hb : b - a = (b - (a + 1)) + 1 := by omega
  rw [hb, List.take_succ_cons]

/-- Reassociation: an output built as a head slice followed by more
material starts with the head element. -/
theorem cons_mid (u : List String) (x : String) (r a2 a3 : List String) :
    u ++ (x :: r) ++ a2 ++ a3 = u ++ x :: (r ++ a2 ++ a3) := by
  simp

/-- C3 amended.  The rendered output of a successfully processed leaf
node begins with the original input line at its `start_line`, copied
verbatim — the title line is never rebuilt from `level`, `title_text`
and `tags`. -/
theorem c3_leaf_output_starts_with_original (lines u : List String) (col : Collection)
    (h : Heading) (u' : List String) (col' : Collection)
    (hleaf : h.is_leaf = true)
    (hlen : h.start_line < lines.length)
    (hlt : h.start_line < (match h.ankiLink with
                           | some l => l.lineStart
                           | none => h.end_line))
    (hrun : syncHeading lines u col h = (Except.ok u', col')) :
    ∃ t, u' = u ++ lines.getD h.start_line "" :: t := by
  cases hl : h.ankiLink with
  | some link =>
      rw [hl] at hlt
      unfold syncHeading at hrun
      rw [hl] at hrun
      simp only [hleaf, eq_self_iff_true, if_true] at hrun
      split at hrun
      · simp at hrun
      · split at hrun
        · simp at hrun
        · split at hrun
          · simp at hrun
          · split at hrun
            · simp at hrun
            · simp only [Prod.mk.injEq, Except.ok.injEq] at hrun
              obtain ⟨h1, -⟩ := hrun
              exact ⟨_, by rw [← h1, pySlice_head lines h.start_line link.lineStart hlen hlt,
                               cons_mid]⟩
  | none =>
      rw [hl] at hlt
      unfold syncHeading at hrun
      rw [hl] at hrun
      simp only [hleaf, eq_self_iff_true, if_true] at hrun
      split at hrun
      · simp at hrun
      · split at hrun
        · simp at hrun
        · simp only [Prod.mk.injEq, Except.ok.injEq] at hrun
          obtain ⟨h1, -⟩ := hrun
          exact ⟨_, by rw [← h1, pySlice_head lines h.start_line h.end_line hlen hlt,
                           cons_mid]⟩

/-- The post-sync state of `titleLines`' single node after its create. -/
def titleCol1 : Collection :=
  { notes := [{ id := 100, field0 := "T", field1 := "\nbody\n", tags := [], mod := 500 }],
    nextId := 101, nextMod := 501,
    opLog := [StoreOp.create 100, StoreOp.fetch 100] }

/-- Witness for C3 (amended) at the concrete `titleLines` document. -/
theorem c3_leaf_output_witness :
    ∃ t, ["#  T\n", "\n[anki](mdankibridge://notes/?id=100&mod=500)\n", "\n", "body\n"] =
      [] ++ titleLines.getD (titleHs.getD 0 defaultHeading).start_line "" :: t :=
  c3_leaf_output_starts_with_original titleLines [] colEmpty
    (titleHs.getD 0 defaultHeading)
    ["#  T\n", "\n[anki](mdankibridge://notes/?id=100&mod=500)\n", "\n", "body\n"]
    titleCol1 (by decide) (by decide) (by decide) rfl

/-- C3 counterexample.  On `titleLines` (title line `"#  T"` with two
spaces) the run succeeds and the node's rendered output begins with the
original title line copied verbatim, which differs from the canonical
title line rebuilt from the node's fields — refuting the claim that the
rendered output begins with a rebuilt title line rather than the
original input line. -/
theorem c3_title_line_copied_verbatim_cex :
    (runMain titleLines titleTokens colEmpty).1 =
        Except.ok ["#  T\n", "\n[anki](mdankibridge://notes/?id=100&mod=500)\n", "\n", "body\n"] ∧
      ((runMain titleLines titleTokens colEmpty).1.toOption.getD []).headD "" =
        titleLines.headD "" ∧
      specCanonicalTitleLine (titleHs.getD 0 defaultHeading).level
          (titleHs.getD 0 defaultHeading).stripped_content
          (titleHs.getD 0 defaultHeading).tags = "# T\n" ∧
      titleLines.headD "" ≠ "# T\n" :=
  ⟨rfl, rfl, rfl, by decide⟩

/-! # C1 -/

/-- C1.  On a leaf node whose anchor records revision 5 while the store
holds revision 9 for that id — the claim's PULL situation — the code
does not pull: after the single fetch it raises the fatal
"Note is newer in anki, skipping sync" error, the store receives no
update, the node is not overwritten from the record, and no file write
happens. -/
theorem c1_store_newer_raises_instead_of_pull :
    runMain pullLines pullTokens pullCol =
        (Except.error "Note is newer in anki, skipping sync",
         { pullCol with opLog := [StoreOp.fetch 7] }) ∧
      finalFile pullLines (runMain pullLines pullTokens pullCol).1 = pullLines :=
  ⟨rfl, rfl⟩

/-! # C2 -/

/-- C2.  On `abLines` the first heading is classified non-leaf, yet the
run creates a store record on its behalf (`create 100` / `fetch 100` in
the log, a record with field0 `"A"` in the store) and its one-line span
`"# A\n"` appears twice in the output — the non-leaf branch falls
through into the sync engine instead of skipping it. -/
theorem c2_nonleaf_enters_sync :
    ((pipelineHeadings abLines abTokens).toOption.getD []).map Heading.is_leaf =
        [false, true] ∧
      ((runMain abLines abTokens colEmpty).1.toOption.getD []).count "# A\n" = 2 ∧
      (runMain abLines abTokens colEmpty).2.opLog =
        [StoreOp.create 100, StoreOp.fetch 100, StoreOp.create 101, StoreOp.fetch 101] ∧
      (runMain abLines abTokens colEmpty).2.notes.map AnkiNote.field0 = ["A", "B"] :=
  ⟨rfl, by decide, rfl, rfl⟩

/-! # C4 -/

/-- C4.  On the claim's own document `"# T #tag_a\n\nbody line\n"` the
created record has field0 `"T"` and tags `["tag_a"]` as claimed, but
field 1 is the verbatim joined body `"\nbody line\n"` — the leading
blank line is not stripped and the claimed value `"body line"` differs. -/
theorem c4_create_field1_keeps_blank_lines :
    (runMain tagLines tagTokens colEmpty).2.notes =
        [{ id := 100, field0 := "T", field1 := "\nbody line\n",
           tags := ["tag_a"], mod := 500 }] ∧
      ("\nbody line\n" : String) ≠ "body line" :=
  ⟨rfl, by decide⟩

/-! # C5 -/

/-- C5.  Running the tool twice on `abLines` with no external store
change between the runs is not a fixed point: the first run succeeds and
writes `abOut1`, the second run (on `abOut1` re-read as file lines, with
the store state the first run left) also succeeds, but its output
differs byte-wise from `abOut1`. -/
theorem c5_second_run_differs :
    (runMain abLines abTokens colEmpty).1 = Except.ok abOut1 ∧
      isOkRun (runMain abLines2 abTokens2 (runMain abLines abTokens colEmpty).2).1 = true ∧
      joinStr (finalFile abLines2
          (runMain abLines2 abTokens2 (runMain abLines abTokens colEmpty).2).1) ≠
        joinStr abOut1 :=
  ⟨rfl, rfl, by decide⟩

end MdAnkiBridge
